import Mathlib

set_option maxHeartbeats 1000000

/-!
Verification development for the `chat-art` repository: a Next.js articles
app with a chat proxy route (`artit/app/api/chat/route.ts`), client-side
chat utilities (`frontend/lib/chat.ts`), an article listing query
(`lib/query/articles.ts`), and a documented (but not included) Python
TF-IDF FAQ matcher, modelled here from its specification.

JavaScript strings are modelled as `List Char` where character-level
operations matter, and as `String` elsewhere; JSON values as an inductive
`Json` type; the upstream `fetch` call as an explicit outcome parameter.
-/

namespace ChatArt

/-! ### `frontend/lib/chat.ts` string utilities (JS strings as `List Char`) -/

/-- JS `String.prototype.trim`: strip leading and trailing whitespace. -/
def jsTrim (s : List Char) : List Char :=
  ((s.dropWhile Char.isWhitespace).reverse.dropWhile Char.isWhitespace).reverse

/-- `validateChatMessage` from `frontend/lib/chat.ts`:
`message.trim().length > 0 && message.length <= 1000`. -/
def validateChatMessage (message : List Char) : Bool :=
  decide (0 < (jsTrim message).length) && decide (message.length ≤ 1000)

/-- `truncateMessage` from `frontend/lib/chat.ts`:
`if (message.length <= maxLength) return message;
 return message.substring(0, maxLength) + "..."`. -/
def truncateMessage (message : List Char) (maxLength : Nat) : List Char :=
  if message.length ≤ maxLength then message
  else message.take maxLength ++ ['.', '.', '.']

/-- JS `String.prototype.replace` with a string pattern: replaces only the
leftmost occurrence of `pat`, or returns the string unchanged when `pat`
does not occur (for an empty `pat`, JS inserts `rep` at the front). -/
def jsReplaceFirst (pat rep : List Char) : List Char → List Char
  | [] => if pat.isEmpty then rep else []
  | c :: cs =>
    if pat.isPrefixOf (c :: cs) then rep ++ (c :: cs).drop pat.length
    else c :: jsReplaceFirst pat rep cs

/-- JS `String.prototype.toUpperCase`, per-character uppercasing. -/
def jsToUpper (s : List Char) : List Char := s.map Char.toUpper

/-- The `sources.map(...)` callback inside `formatChatSources`
(`frontend/lib/chat.ts`): `"faq#..."` becomes
`"FAQ: " + topic.toUpperCase().replace("-", " ")`, `"system#..."` becomes
`"System"`, anything else passes through. -/
def formatOneSource (source : List Char) : List Char :=
  if ("faq#".toList).isPrefixOf source then
    "FAQ: ".toList ++
      jsReplaceFirst ['-'] [' '] (jsToUpper (jsReplaceFirst "faq#".toList [] source))
  else if ("system#".toList).isPrefixOf source then "System".toList
  else source

/-- `formatChatSources` from `frontend/lib/chat.ts`; `none` models a
null/undefined `sources` argument (rendered as the empty string). -/
def formatChatSources (sources : Option (List (List Char))) : List Char :=
  match sources with
  | none => []
  | some srcs =>
    if srcs.length = 0 then []
    else List.intercalate ", ".toList (srcs.map formatOneSource)

/-! ### `artit/app/api/chat/route.ts`: the POST /api/chat proxy handler

JSON values are modelled by `Json`; the outcome of the `fetch` call to the
Python service (and of `request.json()`) is passed in explicitly, since the
handler's behaviour is a function of it. -/

/-- A JSON value, as produced by `request.json()` / consumed by
`NextResponse.json`. -/
inductive Json where
  | null : Json
  | bool (b : Bool) : Json
  | num (q : ℚ) : Json
  | str (s : String) : Json
  | arr (xs : List Json) : Json
  | obj (fields : List (String × Json)) : Json

/-- First field with the given key in a JSON object, as JS property lookup. -/
def lookupField (fields : List (String × Json)) (key : String) : Option Json :=
  match fields with
  | [] => none
  | (k, v) :: rest => if k = key then some v else lookupField rest key

/-- `chatRequestSchema.parse(body)`: `z.object({ message: z.string().min(1) })`.
Returns the parsed `message` string, or `none` when a `ZodError` is thrown
(body not an object, `message` missing or not a string, or shorter than 1). -/
def chatRequestSchema (body : Json) : Option String :=
  match body with
  | Json.obj fields =>
    match lookupField fields "message" with
    | some (Json.str s) => if 1 ≤ s.length then some s else none
    | _ => none
  | _ => none

/-- A thrown JS error: `TypeError` (as thrown by an unreachable `fetch`) or
any other error (e.g. the `Error` thrown on a non-ok upstream status, or a
`SyntaxError` from `request.json()`). -/
inductive JsErr where
  | typeError (msg : String) : JsErr
  | otherError (msg : String) : JsErr

/-- Outcome of `await fetch(PYTHON_SERVICE_URL + "/chat", ...)`: either the
promise resolves with an `ok` flag, HTTP status and (parsed) JSON body, or
it rejects with a thrown error. -/
inductive FetchOutcome where
  | resolved (ok : Bool) (status : Nat) (body : Json) : FetchOutcome
  | threw (e : JsErr) : FetchOutcome

/-- JS `String.prototype.includes`: does `pat` occur as a contiguous
segment of the string? -/
def jsIncludes (pat : List Char) : List Char → Bool
  | [] => pat.isEmpty
  | c :: cs => pat.isPrefixOf (c :: cs) || jsIncludes pat cs

/-- Does the fetch outcome hit the route's mock-fallback guard
`error instanceof TypeError && error.message.includes("fetch")`? -/
def FetchOutcome.isUnavailable : FetchOutcome → Bool
  | FetchOutcome.threw (JsErr.typeError m) => jsIncludes "fetch".toList m.toList
  | _ => false

/-- The parsed request body handed to the route: `request.json()` either
throws (malformed JSON) or yields a JSON value. -/
inductive ReqBody where
  | invalidJson : ReqBody
  | parsed (v : Json) : ReqBody

/-- An HTTP response as built by `NextResponse.json(body, { status })`. -/
structure HttpResponse where
  status : Nat
  body : Json

/-- `{ error: msg }` response body. -/
def errorJson (msg : String) : Json := Json.obj [("error", Json.str msg)]

/-- The route's hard-coded mock fallback body, returned when the Python
service is unreachable. -/
def mockBody : Json :=
  Json.obj
    [("answer",
      Json.str "I'm sorry, the chat service is currently unavailable. Please try again later."),
     ("sources", Json.arr [Json.str "system#unavailable"])]

/-- `PYTHON_SERVICE_URL || "http://localhost:8001"` followed by `"/chat"`;
`envUrl = ""` models an unset (falsy) environment variable. -/
def chatUrl (envUrl : String) : String :=
  (if envUrl = "" then "http://localhost:8001" else envUrl) ++ "/chat"

/-- The POST handler of `artit/app/api/chat/route.ts`. Returns the HTTP
response together with the request forwarded to the Python service
(`none` when `fetch` was never invoked). The `details` field of the 400
body (zod's issue serialization) is abstracted away; every claim below
concerns only the `status` and `error` fields of that response. -/
def handleChat (envUrl : String) (req : ReqBody) (fetched : FetchOutcome) :
    HttpResponse × Option (String × Json) :=
  match req with
  | ReqBody.invalidJson => (⟨500, errorJson "Internal server error"⟩, none)
  | ReqBody.parsed v =>
    match chatRequestSchema v with
    | none => (⟨400, errorJson "Invalid request"⟩, none)
    | some message =>
      let payload := Json.obj [("message", Json.str message)]
      let fwd := some (chatUrl envUrl, payload)
      match fetched with
      | FetchOutcome.resolved true _ data => (⟨200, data⟩, fwd)
      | FetchOutcome.resolved false _ _ => (⟨500, errorJson "Internal server error"⟩, fwd)
      | FetchOutcome.threw (JsErr.typeError m) =>
        if jsIncludes "fetch".toList m.toList then (⟨200, mockBody⟩, fwd)
        else (⟨500, errorJson "Internal server error"⟩, fwd)
      | FetchOutcome.threw (JsErr.otherError _) =>
        (⟨500, errorJson "Internal server error"⟩, fwd)

/-- A request body whose `message` is the string `s`. -/
def msgObj (s : String) : Json := Json.obj [("message", Json.str s)]

/-! ### `lib/query/articles.ts`: the article listing query

`prisma.article.findMany({ orderBy: { date: sort } })` is modelled as a
sort of the database rows by date; the subsequent in-memory filter is
translated directly. -/

/-- A row of the `article` table (fields used by `getArticles`). -/
structure Article where
  id : Nat
  title : String
  summary : String
  date : Int
deriving DecidableEq

/-- Sort direction accepted by `getArticles` (`"asc" | "desc"`). -/
inductive SortDir where
  | asc : SortDir
  | desc : SortDir
deriving DecidableEq

/-- Date order requested from the database: ascending or descending. -/
def dateRel (s : SortDir) (a b : Article) : Prop :=
  match s with
  | SortDir.asc => a.date ≤ b.date
  | SortDir.desc => b.date ≤ a.date

instance (s : SortDir) : DecidableRel (dateRel s) := fun a b =>
  match s with
  | SortDir.asc => inferInstanceAs (Decidable (a.date ≤ b.date))
  | SortDir.desc => inferInstanceAs (Decidable (b.date ≤ a.date))

instance (s : SortDir) : IsTotal Article (dateRel s) :=
  ⟨fun a b => match s with
    | SortDir.asc => Int.le_total a.date b.date
    | SortDir.desc => Int.le_total b.date a.date⟩

instance (s : SortDir) : IsTrans Article (dateRel s) :=
  ⟨by intro a b c hab hbc; cases s; exacts [le_trans hab hbc, le_trans hbc hab]⟩

/-- The filter callback of `getArticles`:
`article.title.toLowerCase().includes(queryLower) ||
 article.summary.toLowerCase().includes(queryLower)`. -/
def matchesQuery (query : String) (a : Article) : Bool :=
  jsIncludes query.toLower.toList a.title.toLower.toList
    || jsIncludes query.toLower.toList a.summary.toLower.toList

/-- `getArticles` from `lib/query/articles.ts`: rows ordered by date in the
requested direction, then filtered by the search query when it is
non-empty (JS truthiness: only `""` skips the filter). -/
def getArticles (db : List Article) (query : String) (sort : SortDir) : List Article :=
  let articles := List.insertionSort (dateRel sort) db
  if query = "" then articles else articles.filter (matchesQuery query)

/-! ### The FAQ matcher core, modelled from the spec

The Python microservice (`python-service/app/services/faq_service.py`) is
documented in the repository but its implementation is not included in
this excerpt; the definitions below are modelled from the specification's
description of the Knowledge Base Loader / Similarity Matcher / Response
Selector. -/

/-- Modelled from the spec: an `FAQEntry` record of the knowledge base
(§3) — id, canonical question, answer, and attribution tag. -/
structure FAQEntry where
  id : String
  question : String
  answer : String
  source_tag : String
deriving DecidableEq

/-- Modelled from the spec: query/fit-phase normalization — lowercase the
text and tokenize on word boundaries (§4.2 step 1). -/
def tokenize (s : String) : List String :=
  (((s.data.map Char.toLower).splitOnP (fun c => !c.isAlphanum)).filter
      (fun t => !t.isEmpty)).map (fun cs => String.mk cs)

/-- Modelled from the spec: contiguous 2-word sequences over the token
list (§4.2 step 2). -/
def bigrams : List String → List String
  | [] => []
  | [_] => []
  | a :: b :: rest => (a ++ " " ++ b) :: bigrams (b :: rest)

/-- Modelled from the spec: the unigram and bigram terms of a text. -/
def queryTerms (s : String) : List String := tokenize s ++ bigrams (tokenize s)

/-- Modelled from the spec: the immutable snapshot retained after the fit
phase (§4.2 step 4): fitted vocabulary, IDF weights, and the matrix of
per-question L2-normalized TF-IDF vectors aligned with the load order of
`entries`. The concrete IDF values (`log((1+N)/(1+df)) + 1`) are data of
the snapshot; the theorems below hold for every snapshot. -/
structure FittedModel where
  entries : List FAQEntry
  vocab : List String
  idf : String → ℝ
  questionVectors : List (List ℝ)

/-- Modelled from the spec: term frequency — occurrences of `t` within the
term list. -/
def termFreq (t : String) (terms : List String) : Nat := terms.count t

/-- Modelled from the spec: project the query onto the fitted vocabulary —
out-of-vocabulary terms contribute zero weight — and apply the IDF weights
(§4.2 query phase steps 2-3). -/
noncomputable def rawQueryVector (m : FittedModel) (q : String) : List ℝ :=
  m.vocab.map (fun t => (termFreq t (queryTerms q) : ℝ) * m.idf t)

/-- Dot product of two weight vectors (componentwise product, summed). -/
noncomputable def dot : List ℝ → List ℝ → ℝ
  | x :: xs, y :: ys => x * y + dot xs ys
  | _, _ => 0

/-- Modelled from the spec: L2 normalization with the zero-vector
short-circuit — a zero-magnitude vector is returned unscaled instead of
being divided by a zero norm (§4.2 edge cases). -/
noncomputable def l2normalize (v : List ℝ) : List ℝ :=
  if dot v v = 0 then v else v.map (fun x => x / Real.sqrt (dot v v))

/-- Modelled from the spec: cosine similarity of the normalized query
vector against one stored (already normalized) question vector (§4.2
query phase step 4). -/
noncomputable def cosineScore (m : FittedModel) (q : String) (v : List ℝ) : ℝ :=
  dot (l2normalize (rawQueryVector m q)) v

/-- Modelled from the spec: the per-entry similarity scores, in load
order. -/
noncomputable def scores (m : FittedModel) (q : String) : List ℝ :=
  m.questionVectors.map (cosineScore m q)

/-- Modelled from the spec: argument-max with the earliest-load-order
tie-break — a later entry wins only with a strictly greater score (§4.2
query phase step 5). -/
noncomputable def bestMatch : List (FAQEntry × ℝ) → Option (FAQEntry × ℝ)
  | [] => none
  | x :: xs => some (xs.foldl (fun best y => if best.2 < y.2 then y else best) x)

/-- Modelled from the spec: `answer_query` (§6), the one logical operation
of the core: tokenize → project → score → argmax over the immutable
snapshot, returning `(entry, score)` even when the score is 0. -/
noncomputable def answer_query (m : FittedModel) (q : String) : Option (FAQEntry × ℝ) :=
  bestMatch (m.entries.zip (scores m q))

/-- Modelled from the spec (§5): a batch of queries served against the
same immutable snapshot; each query is answered independently, with no
per-request state retained between calls. -/
noncomputable def serve (m : FittedModel) (qs : List String) : List (Option (FAQEntry × ℝ)) :=
  qs.map (answer_query m)

/-- Every term of the query is absent from the fitted vocabulary (the
all-out-of-vocabulary condition of §4.2, decidably stated). -/
def allOOV (m : FittedModel) (q : String) : Bool :=
  (queryTerms q).all (fun t => !(decide (t ∈ m.vocab)))

/-- Modelled from the spec: the matcher result handed to the Response
Selector (§4.3) — best entry plus its similarity score. -/
structure MatchResult (α : Type) where
  entry : FAQEntry
  score : α

/-- Modelled from the spec: the `Outcome` sum type of the Response
Selector (§4.3). -/
inductive Outcome where
  | Answered (answer : String) (source_tag : String) : Outcome
  | NoMatch : Outcome
deriving DecidableEq

/-- Modelled from the spec: `select(MatchResult, threshold)` (§4.3) —
`Answered` iff `score >= threshold`; the threshold is a parameter of the
call, not a constant baked into the function. -/
def select {α : Type} [LinearOrder α] (r : MatchResult α) (threshold : α) : Outcome :=
  if threshold ≤ r.score then Outcome.Answered r.entry.answer r.entry.source_tag
  else Outcome.NoMatch

/-- Modelled from the spec: the documented default confidence threshold
0.3, overridable per deployment. -/
def defaultThreshold : ℚ := 3 / 10

/-- A sample knowledge-base entry (the concrete scenario of §8). -/
def eW : FAQEntry :=
  ⟨"ebitda", "What is EBITDA?", "EBITDA is ...", "faq#ebitda"⟩

/-- A sample one-entry fitted snapshot used by the witnesses. -/
noncomputable def modelW : FittedModel :=
  ⟨[eW], ["what"], fun _ => 1, [[1]]⟩

/-! ### Claims about the chat string utilities -/

/-- Claim C2: `validateChatMessage m` is `true` iff the message trimmed of
leading/trailing whitespace is non-empty and the untrimmed length of the
message is at most 1000 characters. -/
theorem validateChatMessage_spec (m : List Char) :
    validateChatMessage m = true ↔ (jsTrim m ≠ [] ∧ m.length ≤ 1000) := by
  simp [validateChatMessage, List.length_pos]

/-- Claim C9: `truncateMessage` returns the message unchanged when its
length is at most `maxLength`, otherwise the first `maxLength` characters
followed by `"..."`, of length `maxLength + 3` (which can exceed
`maxLength`, e.g. on `"AB"` with bound 1); it is idempotent at a fixed
`maxLength`. -/
theorem truncateMessage_spec (m : List Char) (maxLength : Nat) :
    (m.length ≤ maxLength → truncateMessage m maxLength = m)
    ∧ (maxLength < m.length →
        truncateMessage m maxLength = m.take maxLength ++ ['.', '.', '.']
        ∧ (truncateMessage m maxLength).length = maxLength + 3)
    ∧ truncateMessage (truncateMessage m maxLength) maxLength = truncateMessage m maxLength
    ∧ truncateMessage ['A', 'B'] 1 = ['A', '.', '.', '.']
    ∧ (truncateMessage ['A', 'B'] 1).length = 4 := by
  refine ⟨fun h => by simp [truncateMessage, h], fun h => ?_, ?_, by decide, by decide⟩
  · have hn : ¬ m.length ≤ maxLength := Nat.not_le.mpr h
    constructor
    · simp [truncateMessage, hn]
    · simp [truncateMessage, hn, List.length_take, Nat.min_eq_left h.le]
  · by_cases h : m.length ≤ maxLength
    · simp [truncateMessage, h]
    · have h1 : ¬ (m.take maxLength ++ ['.', '.', '.']).length ≤ maxLength := by
        push_neg at h
        simp [List.length_take, Nat.min_eq_left h.le]
      push_neg at h
      simp [truncateMessage, Nat.not_le.mpr h, h1, List.take_append_eq_append_take,
        List.length_take, Nat.min_eq_left h.le, List.take_take]

/-- Witness for C9 at concrete inputs. -/
theorem truncateMessage_spec_witness :
    ((['a', 'b', 'c'].length ≤ 5 ∧ truncateMessage ['a', 'b', 'c'] 5 = ['a', 'b', 'c'])
      ∧ (1 < (['A', 'B'] : List Char).length
          ∧ (truncateMessage ['A', 'B'] 1).length = 1 + 3)) :=
  ⟨⟨by decide, (truncateMessage_spec ['a', 'b', 'c'] 5).1 (by decide)⟩,
    ⟨by decide, ((truncateMessage_spec ['A', 'B'] 1).2.1 (by decide)).2⟩⟩

/-- The `replace("faq#", "")` step strips exactly the `faq#` pre-tag when
the source starts with it. -/
theorem jsReplaceFirst_faq_strip (rest : List Char) :
    jsReplaceFirst ['f', 'a', 'q', '#'] [] ('f' :: 'a' :: 'q' :: '#' :: rest) = rest := by
  simp [jsReplaceFirst, List.isPrefixOf]

/-- Claim C10: `formatChatSources` returns the empty string for a missing
or empty source list; a `faq#topic` source renders as `"FAQ: "` plus the
topic uppercased with only the first hyphen replaced by a space; a
`system#...` source renders as `"System"`; any other source passes
through; parts are joined with `", "` in input order. -/
theorem formatChatSources_spec (srcs : List (List Char)) (rest other : List Char) :
    formatChatSources none = []
    ∧ formatChatSources (some []) = []
    ∧ (srcs ≠ [] →
        formatChatSources (some srcs)
          = List.intercalate ", ".toList (srcs.map formatOneSource))
    ∧ formatOneSource ("faq#".toList ++ rest)
        = "FAQ: ".toList ++ jsReplaceFirst ['-'] [' '] (jsToUpper rest)
    ∧ formatOneSource ("system#".toList ++ rest) = "System".toList
    ∧ (¬ ("faq#".toList <+: other) → ¬ ("system#".toList <+: other) →
        formatOneSource other = other)
    ∧ formatChatSources (some ["faq#free-cash-flow".toList]) = "FAQ: FREE CASH-FLOW".toList := by
  refine ⟨rfl, rfl, fun h => ?_, ?_, ?_, fun h1 h2 => ?_, by decide⟩
  · simp [formatChatSources, List.length_eq_zero, h]
  · have hpre : ("faq#".toList).isPrefixOf ("faq#".toList ++ rest) = true := by
      have h : "faq#".toList = ['f', 'a', 'q', '#'] := rfl
      rw [h]
      simp [List.isPrefixOf]
    simp [formatOneSource, hpre, jsReplaceFirst_faq_strip]
  · have hpre : ("faq#".toList).isPrefixOf ("system#".toList ++ rest) = false := by
      have h1 : "faq#".toList = ['f', 'a', 'q', '#'] := rfl
      have h2 : "system#".toList = ['s', 'y', 's', 't', 'e', 'm', '#'] := rfl
      rw [h1, h2]
      simp [List.isPrefixOf]
    have hpre2 : ("system#".toList).isPrefixOf ("system#".toList ++ rest) = true := by
      have h2 : "system#".toList = ['s', 'y', 's', 't', 'e', 'm', '#'] := rfl
      rw [h2]
      simp [List.isPrefixOf]
    simp [formatOneSource, hpre, hpre2]
  · rw [show "faq#".toList = ['f', 'a', 'q', '#'] from rfl] at h1
    rw [show "system#".toList = ['s', 'y', 's', 't', 'e', 'm', '#'] from rfl] at h2
    simp [formatOneSource, h1, h2]

/-- Witness for C10 at concrete inputs. -/
theorem formatChatSources_spec_witness :
    ((["doc#a".toList] : List (List Char)) ≠ []
      ∧ formatChatSources (some ["doc#a".toList])
          = List.intercalate ", ".toList (["doc#a".toList].map formatOneSource))
    ∧ (¬ ("faq#".toList <+: "doc#a".toList)
      ∧ ¬ ("system#".toList <+: "doc#a".toList)
      ∧ formatOneSource "doc#a".toList = "doc#a".toList) :=
  ⟨⟨by decide, (formatChatSources_spec ["doc#a".toList] [] []).2.2.1 (by decide)⟩,
    ⟨by decide, by decide,
      (formatChatSources_spec [] [] "doc#a".toList).2.2.2.2.2.1 (by decide) (by decide)⟩⟩

theorem string_length_eq_zero (s : String) : s.length = 0 ↔ s = "" := by
  cases s with
  | mk data => simp [String.length, List.length_eq_zero, String.ext_iff]

/-- `z.string().min(1)` accepts exactly the non-empty strings: parsing a
body whose `message` is the string `s` fails iff `s` is the empty string. -/
theorem chatRequestSchema_msgObj (s : String) :
    chatRequestSchema (msgObj s) = if s = "" then none else some s := by
  by_cases hs : s = ""
  · subst hs; rfl
  · have h1 : 1 ≤ s.length := by
      rcases Nat.eq_zero_or_pos s.length with h | h
      · exact absurd ((string_length_eq_zero s).mp h) hs
      · exact h
    simp [chatRequestSchema, msgObj, lookupField, hs, h1]

/-! ### Claims about the POST /api/chat handler -/

/-- Counterexample to claim C1 as stated: the whitespace-only message
`" "` is empty after trimming, yet the handler does not return 400 — it
passes `z.string().min(1)`, is forwarded to the Python service, and the
upstream response is returned with status 200. -/
theorem chat_whitespace_forwarded_cex :
    (handleChat "" (ReqBody.parsed (msgObj " "))
        (FetchOutcome.resolved true 200 (Json.str "ok"))).1.status = 200
    ∧ (handleChat "" (ReqBody.parsed (msgObj " "))
        (FetchOutcome.resolved true 200 (Json.str "ok"))).2
      = some (chatUrl "", msgObj " ") :=
  ⟨rfl, rfl⟩

/-- Claim C1 (amended): for a request body whose `message` field is a
string `s`, the handler returns HTTP 400 iff `s` is the empty string; in
that case the body carries error `"Invalid request"` and nothing is
forwarded; every non-empty `s` — including whitespace-only strings — is
forwarded to the Python service. -/
theorem chat_validation_spec (envUrl s : String) (f : FetchOutcome) :
    ((handleChat envUrl (ReqBody.parsed (msgObj s)) f).1.status = 400 ↔ s = "")
    ∧ (handleChat envUrl (ReqBody.parsed (msgObj "")) f).1
        = ⟨400, errorJson "Invalid request"⟩
    ∧ (handleChat envUrl (ReqBody.parsed (msgObj "")) f).2 = none
    ∧ (s ≠ "" →
        (handleChat envUrl (ReqBody.parsed (msgObj s)) f).2
          = some (chatUrl envUrl, msgObj s)) := by
  refine ⟨?_, by simp [handleChat, chatRequestSchema_msgObj], by simp [handleChat, chatRequestSchema_msgObj], fun hs => ?_⟩
  · by_cases hs : s = ""
    · simp [handleChat, chatRequestSchema_msgObj, hs]
    · simp only [handleChat, chatRequestSchema_msgObj, if_neg hs]
      cases f with
      | resolved ok st b => cases ok <;> simp [hs]
      | threw e =>
        cases e with
        | typeError m =>
          by_cases hm : jsIncludes ['f', 'e', 't', 'c', 'h'] m.data = true <;> simp [hm, hs]
        | otherError m => simp [hs]
  · simp only [handleChat, chatRequestSchema_msgObj, if_neg hs]
    cases f with
    | resolved ok st b => cases ok <;> simp [msgObj]
    | threw e =>
      cases e with
      | typeError m =>
        by_cases hm : jsIncludes ['f', 'e', 't', 'c', 'h'] m.data = true <;> simp [hm, msgObj]
      | otherError m => simp [msgObj]

/-- Witness for the amended C1 at concrete inputs. -/
theorem chat_validation_spec_witness :
    (" " : String) ≠ ""
    ∧ (handleChat "" (ReqBody.parsed (msgObj " "))
        (FetchOutcome.resolved true 200 Json.null)).2 = some (chatUrl "", msgObj " ") :=
  ⟨by decide, (chat_validation_spec "" " " (FetchOutcome.resolved true 200 Json.null)).2.2.2 (by decide)⟩

/-- Claim C3: for a non-empty `message` string, when the fetch resolves
ok, the handler forwards exactly `{ message }` to
`PYTHON_SERVICE_URL + "/chat"` and returns the upstream JSON body
unchanged with status 200. -/
theorem chat_proxy_forwards (envUrl s : String) (st : Nat) (data : Json) (hs : s ≠ "") :
    handleChat envUrl (ReqBody.parsed (msgObj s)) (FetchOutcome.resolved true st data)
      = (⟨200, data⟩, some (chatUrl envUrl, msgObj s)) := by
  simp only [handleChat, chatRequestSchema_msgObj, if_neg hs]
  simp [msgObj]

/-- Witness for C3 at concrete inputs. -/
theorem chat_proxy_forwards_witness :
    ("hi" : String) ≠ ""
    ∧ handleChat "" (ReqBody.parsed (msgObj "hi"))
        (FetchOutcome.resolved true 200 (Json.str "x"))
      = (⟨200, Json.str "x"⟩, some (chatUrl "", msgObj "hi")) :=
  ⟨by decide, chat_proxy_forwards "" "hi" 200 (Json.str "x") (by decide)⟩

/-- Counterexample to claim C8 as stated: the handler also returns the
mock fallback body with status 200 when the Python service itself resolves
ok with exactly that JSON — no `TypeError` is thrown by `fetch` there. -/
theorem chat_mock_coincidence_cex :
    (handleChat "" (ReqBody.parsed (msgObj "hi"))
        (FetchOutcome.resolved true 200 mockBody)).1.status = 200
    ∧ (handleChat "" (ReqBody.parsed (msgObj "hi"))
        (FetchOutcome.resolved true 200 mockBody)).1.body = mockBody
    ∧ (FetchOutcome.resolved true 200 mockBody).isUnavailable = false :=
  ⟨rfl, rfl, rfl⟩

/-- Claim C8 (amended): for a valid (non-empty) message, the handler
returns the mock fallback `{answer: "I'm sorry, ...", sources:
["system#unavailable"]}` with status 200 exactly when the fetch throws a
`TypeError` whose message contains `"fetch"` — or when the upstream itself
resolves ok with exactly the mock JSON, which the proxy passes through
unchanged; a non-ok upstream response instead yields HTTP 500 with
`{error: "Internal server error"}`, never the mock fallback. -/
theorem chat_fallback_spec (envUrl s : String) (f : FetchOutcome) (hs : s ≠ "") :
    (f.isUnavailable = true →
      (handleChat envUrl (ReqBody.parsed (msgObj s)) f).1 = ⟨200, mockBody⟩)
    ∧ (∀ st b, f = FetchOutcome.resolved false st b →
        (handleChat envUrl (ReqBody.parsed (msgObj s)) f).1
          = ⟨500, errorJson "Internal server error"⟩)
    ∧ ((handleChat envUrl (ReqBody.parsed (msgObj s)) f).1 = ⟨200, mockBody⟩ ↔
        (f.isUnavailable = true
          ∨ ∃ st, f = FetchOutcome.resolved true st mockBody)) := by
  simp only [handleChat, chatRequestSchema_msgObj, if_neg hs]
  cases f with
  | resolved ok st b =>
    cases ok with
    | true =>
      refine ⟨by simp [FetchOutcome.isUnavailable], by simp, ?_⟩
      constructor
      · intro h
        exact Or.inr ⟨st, by simp_all⟩
      · rintro (h | ⟨st', h⟩)
        · simp [FetchOutcome.isUnavailable] at h
        · simp_all
    | false =>
      refine ⟨by simp [FetchOutcome.isUnavailable], by simp, ?_⟩
      constructor
      · intro h
        simp at h
      · rintro (h | ⟨st', h⟩)
        · simp [FetchOutcome.isUnavailable] at h
        · simp_all
  | threw e =>
    cases e with
    | typeError m =>
      by_cases hm : jsIncludes ['f', 'e', 't', 'c', 'h'] m.data = true
      · refine ⟨fun _ => by simp [hm], by simp, ?_⟩
        simp [hm, FetchOutcome.isUnavailable]
      · refine ⟨?_, by simp, ?_⟩
        · intro h
          simp [FetchOutcome.isUnavailable, hm] at h
        · constructor
          · intro h
            simp [hm] at h
          · rintro (h | ⟨st', h⟩)
            · simp [FetchOutcome.isUnavailable, hm] at h
            · simp_all
    | otherError m =>
      refine ⟨?_, by simp, ?_⟩
      · intro h
        simp [FetchOutcome.isUnavailable] at h
      · constructor
        · intro h
          simp at h
        · rintro (h | ⟨st', h⟩)
          · simp [FetchOutcome.isUnavailable] at h
          · simp_all

/-- Witness for the amended C8 at concrete inputs: one unreachable-service
outcome and one non-ok upstream outcome. -/
theorem chat_fallback_spec_witness :
    (("hi" : String) ≠ ""
      ∧ (FetchOutcome.threw (JsErr.typeError "fetch failed")).isUnavailable = true
      ∧ (handleChat "" (ReqBody.parsed (msgObj "hi"))
          (FetchOutcome.threw (JsErr.typeError "fetch failed"))).1 = ⟨200, mockBody⟩)
    ∧ (handleChat "" (ReqBody.parsed (msgObj "hi"))
        (FetchOutcome.resolved false 500 Json.null)).1
      = ⟨500, errorJson "Internal server error"⟩ :=
  ⟨⟨by decide, by decide,
      (chat_fallback_spec "" "hi" (FetchOutcome.threw (JsErr.typeError "fetch failed"))
        (by decide)).1 (by decide)⟩,
    (chat_fallback_spec "" "hi" (FetchOutcome.resolved false 500 Json.null)
      (by decide)).2.1 500 Json.null rfl⟩

/-! ### Claims about the article listing, the selector and the matcher -/

/-- Claim C7: `getArticles` returns the database rows ordered by date in
the requested direction; with an empty query all rows are returned
unfiltered, and with a non-empty query exactly the rows whose title or
summary contains the query case-insensitively, with the date order
preserved (the result is always a sublist of the full sorted listing). -/
theorem getArticles_spec (db : List Article) (query : String) (s : SortDir) :
    List.Sorted (dateRel s) (getArticles db query s)
    ∧ List.Perm (getArticles db "" s) db
    ∧ (query ≠ "" →
        List.Perm (getArticles db query s) (db.filter (matchesQuery query)))
    ∧ List.Sublist (getArticles db query s) (getArticles db "" s) := by
  refine ⟨?_, ?_, fun hq => ?_, ?_⟩
  · by_cases hq : query = ""
    · simpa [getArticles, hq] using List.sorted_insertionSort (dateRel s) db
    · have hsub := List.filter_sublist (p := matchesQuery query)
        (l := List.insertionSort (dateRel s) db)
      simpa [getArticles, hq] using
        (List.sorted_insertionSort (dateRel s) db).sublist hsub
  · simpa [getArticles] using List.perm_insertionSort (dateRel s) db
  · simpa [getArticles, hq] using (List.perm_insertionSort (dateRel s) db).filter _
  · by_cases hq : query = ""
    · simp [hq]
    · simp [getArticles, hq]

/-- Witness for C7 at concrete inputs. -/
theorem getArticles_spec_witness :
    ("o" : String) ≠ ""
    ∧ List.Perm (getArticles [⟨1, "Hello", "World", 5⟩] "o" SortDir.asc)
        ([(⟨1, "Hello", "World", 5⟩ : Article)].filter (matchesQuery "o")) :=
  ⟨by decide,
    (getArticles_spec [⟨1, "Hello", "World", 5⟩] "o" SortDir.asc).2.2.1 (by decide)⟩

/-- Claim C4: `select` returns `Answered{answer, source_tag}` iff the
score is at least the threshold, returns `NoMatch` whenever the score is
strictly below it, and the default threshold is the configurable value
0.3 — `select` takes the threshold as an argument. -/
theorem select_spec {α : Type} [LinearOrder α] (r : MatchResult α) (t : α) :
    (select r t = Outcome.Answered r.entry.answer r.entry.source_tag ↔ t ≤ r.score)
    ∧ (r.score < t → select r t = Outcome.NoMatch)
    ∧ defaultThreshold = 3 / 10 := by
  refine ⟨?_, fun h => ?_, rfl⟩
  · by_cases h : t ≤ r.score
    · simp [select, h]
    · simp [select, h]
  · simp [select, not_le.mpr h]

/-- Witness for C4 at concrete rational inputs. -/
theorem select_spec_witness :
    ((1 : ℚ) / 10 < defaultThreshold)
    ∧ select (MatchResult.mk eW ((1 : ℚ) / 10)) defaultThreshold = Outcome.NoMatch :=
  ⟨by norm_num [defaultThreshold],
    (select_spec (MatchResult.mk eW ((1 : ℚ) / 10)) defaultThreshold).2.1
      (by norm_num [defaultThreshold])⟩

theorem dot_replicate_zero (n : Nat) : ∀ v : List ℝ, dot (List.replicate n 0) v = 0 := by
  induction n with
  | zero => intro v; cases v <;> simp [dot]
  | succ k ih =>
    intro v
    cases v with
    | nil => simp [dot]
    | cons y ys => simp [dot, List.replicate_succ, ih ys]

/-- Claim C5: a query all of whose terms are out of the fitted vocabulary
(including the empty query) yields the zero query vector; its cosine
similarity against every knowledge-base vector is 0 — no error, no
division by zero — and for every positive threshold the selector turns
the score into the normal `NoMatch` outcome. -/
theorem matcher_oov_safe (m : FittedModel) (q : String) (h : allOOV m q = true) :
    rawQueryVector m q = List.replicate m.vocab.length 0
    ∧ (∀ v, v ∈ m.questionVectors → cosineScore m q v = 0)
    ∧ (∀ v, v ∈ m.questionVectors → ∀ e : FAQEntry, ∀ thr : ℝ, 0 < thr →
        select (MatchResult.mk e (cosineScore m q v)) thr = Outcome.NoMatch) := by
  have hz : rawQueryVector m q = List.replicate m.vocab.length 0 := by
    have hlen : (rawQueryVector m q).length = m.vocab.length := by
      simp [rawQueryVector]
    rw [← hlen, List.eq_replicate_length]
    intro b hb
    simp only [rawQueryVector, List.mem_map] at hb
    obtain ⟨t, ht, rfl⟩ := hb
    have hmem : t ∉ queryTerms q := by
      intro hmemq
      have := (List.all_eq_true.mp h) t hmemq
      simp at this
      exact this ht
    have hcount : termFreq t (queryTerms q) = 0 :=
      List.count_eq_zero.mpr hmem
    simp [hcount]
  have hdot : ∀ v, cosineScore m q v = 0 := by
    intro v
    simp [cosineScore, hz, l2normalize, dot_replicate_zero]
  refine ⟨hz, fun v _ => hdot v, fun v _ e thr hthr => ?_⟩
  rw [hdot v]
  simp [select, not_le.mpr hthr]

/-- Witness for C5 at a concrete snapshot and query. -/
theorem matcher_oov_safe_witness :
    allOOV modelW "zzz" = true
    ∧ (0 : ℝ) < 1
    ∧ select (MatchResult.mk eW (cosineScore modelW "zzz" [(1 : ℝ)])) 1 = Outcome.NoMatch :=
  ⟨by decide, one_pos,
    (matcher_oov_safe modelW "zzz" (by decide)).2.2 [(1 : ℝ)]
      (List.mem_singleton.mpr rfl) eW 1 one_pos⟩

/-- Claim C6: `answer_query` is a pure function of the query text and the
immutable fitted snapshot — two calls with the same inputs return the same
`(entry, score)` — and a query served in a batch is answered exactly as it
would be alone, independent of the surrounding requests (no per-request
state is retained). -/
theorem answer_query_deterministic (m : FittedModel) (q : String) (qs₁ qs₂ : List String) :
    answer_query m q = answer_query m q
    ∧ serve m (qs₁ ++ q :: qs₂) = serve m qs₁ ++ answer_query m q :: serve m qs₂ :=
  ⟨rfl, by simp [serve]⟩

end ChatArt
